import Mathlib

/-!
Shallow embedding of the recommendation engine of this repository
(recommender/recommender_engine.py, class HybridRecommender), together with
theorems checking the specification's claims about it.

Modelling conventions:
* Python floats are modelled as rationals; the float literals 0.4, 0.6, 0.2 and
  the neutral rating 3.0 are exact in this model.
* The three pandas data frames loaded in `_load_data` are lists of rows in frame
  order; the dense positional index of `movies_df` (used for similarity-matrix
  lookups via `movie.name`) is the list position.
* `DataFrame.sample` draws `n` distinct rows at random without replacement and
  raises `ValueError` when `n` exceeds the number of rows.  The randomness is made
  explicit: the caller passes a `draw` (a list of row positions) and validity of
  the draw is a hypothesis; the raised error is modelled by `none`.
* The trained surprise SVD model is opaque: it is a prediction function which may
  fail (`predict` returning `none` models a raised exception caught by the bare
  `except` in `_get_collaborative_score`).
* Python `list.sort` with a key and `reverse=True` is a stable descending sort; it
  is modelled by `List.insertionSort` with the non-strict descending order, which
  is also stable, and a stable sort of a list under a total preorder is unique.
* `Series.sort_values` with `ascending=False` uses an unstable quicksort, so the
  order of equal popularity scores is unspecified in the source; the model fixes
  the stable order as one concrete refinement (no claim depends on that order).
* The pickle cache directory is modelled by one `CacheState` per artifact kind:
  absent, present, or corrupt; `pickle.load` of a corrupt artifact raises, which
  is modelled by `Except.error` (the source has no try/except around the load).
-/

namespace Film

open scoped List

/-- A row of the `recommender_movie` table as selected in `_load_data`
(`SELECT id, title, genre, overview, tmdb_id`); `genre` and `overview` may be
missing (NaN in the frame). -/
structure Movie where
  id : Nat
  title : String
  genre : Option String
  overview : Option String
  tmdb_id : Nat
  deriving DecidableEq

/-- A row of the `recommender_rating` table as selected in `_load_data`
(`SELECT id, user_id, movie_id, rating, timestamp`). -/
structure Rating where
  rid : Nat
  user_id : Nat
  movie_id : Nat
  rating : ℚ
  timestamp : Nat
  deriving DecidableEq

/-- A row of the `recommender_watchlist` table as selected in `_load_data`
(`SELECT id, user_id, movie_id, added_at`). -/
structure WatchlistEntry where
  wid : Nat
  user_id : Nat
  movie_id : Nat
  added_at : Nat
  deriving DecidableEq

/-- The trained collaborative model (`surprise.SVD`), kept opaque: all the engine
uses is `predict(user_id, movie_id).est`; a `none` result models a raised
exception. -/
structure SVDModel where
  predict : Nat → Nat → Option ℚ

/-- The in-memory state of a constructed `HybridRecommender`: the three snapshot
frames and the two model artifacts.  `contentSimilarity i j` is the entry
`content_similarity[i, j]` of the dense similarity matrix, indexed by positional
row index in `movies`; `svdModel = none` is the dummy-model state. -/
structure Engine where
  movies : List Movie
  ratings : List Rating
  watchlist : List WatchlistEntry
  contentSimilarity : Nat → Nat → ℚ
  svdModel : Option SVDModel

/-- The similarity values collected by the loop in `_get_content_scores`: for each
rated movie id, look up the first row of `movies_df` with that id
(`movies_df[movies_df['id'] == rated_movie_id].index`, first entry) and read the
similarity entry; rated ids with no row in the snapshot contribute nothing. -/
def similarityLookups (e : Engine) (movieIdx : Nat) (ratedMovies : List Nat) : List ℚ :=
  ratedMovies.filterMap fun rid =>
    (e.movies.findIdx? fun m => m.id == rid).map fun ridx =>
      e.contentSimilarity movieIdx ridx

/-- `_get_content_scores`: mean similarity between the candidate row `movieIdx`
and the user's rated movies; `0` when the rated list is empty (falsy) or no rated
movie is found in the snapshot (`np.mean(similarities) if similarities else 0`). -/
def getContentScores (e : Engine) (movieIdx : Nat) (ratedMovies : List Nat) : ℚ :=
  if ratedMovies.isEmpty then 0
  else
    let similarities := similarityLookups e movieIdx ratedMovies
    if similarities.isEmpty then 0
    else similarities.sum / (similarities.length : ℚ)

/-- `_get_collaborative_score`: the SVD prediction for the pair, `3.0` when no
model exists or the prediction raises. -/
def getCollaborativeScore (e : Engine) (user_id movie_id : Nat) : ℚ :=
  match e.svdModel with
  | none => 3
  | some m =>
    match m.predict user_id movie_id with
    | some est => est
    | none => 3

/-- `_is_in_watchlist`: membership test on the watchlist frame (the frame is
always loaded by `_load_data`, so the `hasattr` guard is always true). -/
def isInWatchlist (e : Engine) (user_id movie_id : Nat) : Bool :=
  e.watchlist.any fun w => w.user_id == user_id && w.movie_id == movie_id

/-- The distinct movie ids of the rating snapshot in ascending order: the keys of
`ratings_df.groupby('movie_id')` (pandas sorts group keys ascending). -/
def popKeys (ratings : List Rating) : List Nat :=
  ((ratings.map Rating.movie_id).dedup).insertionSort (fun a b => a ≤ b)

/-- `movie_ratings_count[mid]`: the size of the group of `mid` in the rating
snapshot. -/
def ratingCount (ratings : List Rating) (mid : Nat) : Nat :=
  (ratings.filter fun r => r.movie_id == mid).length

/-- `movie_avg_rating[mid]`: the mean rating of the group of `mid`. -/
def meanRating (ratings : List Rating) (mid : Nat) : ℚ :=
  ((ratings.filter fun r => r.movie_id == mid).map Rating.rating).sum
    / (ratingCount ratings mid : ℚ)

/-- The popularity score `movie_ratings_count * movie_avg_rating` of one movie. -/
def popScore (ratings : List Rating) (mid : Nat) : ℚ :=
  (ratingCount ratings mid : ℚ) * meanRating ratings mid

/-- `movies_df.sample(n=n)['id'].tolist()`: the ids of the rows at the drawn
positions; pandas raises `ValueError` (modelled `none`) when `n` exceeds the
number of rows (sampling is without replacement). -/
def sampleMovieIds (movies : List Movie) (n : Nat) (draw : List Nat) : Option (List Nat) :=
  if n ≤ movies.length then
    some ((draw.filterMap fun i => movies[i]?).map Movie.id)
  else none

/-- A valid random draw of a sample of size `n` from `len` rows: `n` distinct row
positions, each in range. -/
def ValidDraw (draw : List Nat) (n len : Nat) : Prop :=
  draw.Nodup ∧ draw.length = n ∧ ∀ i ∈ draw, i < len

instance (draw : List Nat) (n len : Nat) : Decidable (ValidDraw draw n len) := by
  unfold ValidDraw; infer_instance

/-- The descending comparison on movie ids by popularity score, used to model
`popularity.sort_values(ascending=False)`. -/
def popGE (ratings : List Rating) (a b : Nat) : Prop :=
  popScore ratings b ≤ popScore ratings a

instance (ratings : List Rating) : DecidableRel (popGE ratings) := fun a b =>
  inferInstanceAs (Decidable (popScore ratings b ≤ popScore ratings a))

instance (ratings : List Rating) : IsTotal Nat (popGE ratings) :=
  ⟨fun a b => le_total (popScore ratings b) (popScore ratings a)⟩

instance (ratings : List Rating) : IsTrans Nat (popGE ratings) :=
  ⟨fun _ _ _ hab hbc => le_trans hbc hab⟩

/-- `_get_popular_movies`: with an empty rating snapshot, a random sample of the
catalog; otherwise the group keys sorted descending by popularity score, first
`n` taken (`popularity.head(n).index.tolist()`). -/
def getPopularMovies (e : Engine) (n : Nat) (draw : List Nat) : Option (List Nat) :=
  if e.ratings.isEmpty then
    sampleMovieIds e.movies n draw
  else
    let keys := popKeys e.ratings
    let sorted := keys.insertionSort (popGE e.ratings)
    some (sorted.take n)

/-- The frame `user_ratings = ratings_df[ratings_df['user_id'] == user_id]`. -/
def userRatings (e : Engine) (user_id : Nat) : List Rating :=
  e.ratings.filter fun r => r.user_id == user_id

/-- `rated_movie_ids = user_ratings['movie_id'].tolist()`. -/
def ratedMovieIds (e : Engine) (user_id : Nat) : List Nat :=
  (userRatings e user_id).map Rating.movie_id

/-- `unrated_movies = movies_df[~movies_df['id'].isin(rated_movie_ids)]`: the rows
of the movie frame whose id the user has not rated, each paired with its original
positional index (`movie.name`). -/
def unratedMovies (e : Engine) (user_id : Nat) : List (Nat × Movie) :=
  e.movies.enum.filter fun p => !((ratedMovieIds e user_id).contains p.2.id)

/-- The per-candidate scoring record appended to `recommendations` by one
iteration of the loop in `get_recommendations`: content score scaled to 0-5,
collaborative score, hybrid combination with the fixed weights, and the
unconditional +0.2 watchlist boost. -/
structure RecRecord where
  movie_id : Nat
  content_score : ℚ
  collab_score : ℚ
  hybrid_score : ℚ
  in_watchlist : Bool
  deriving DecidableEq

/-- One iteration of the candidate loop of `get_recommendations` at dataframe
index `movieIdx` and row `m`. -/
def mkRecord (e : Engine) (user_id : Nat) (ratedIds : List Nat)
    (movieIdx : Nat) (m : Movie) : RecRecord :=
  let content_score := getContentScores e movieIdx ratedIds
  let collab_score := getCollaborativeScore e user_id m.id
  let content_score_normalized := content_score * 5
  let base := (0.4 : ℚ) * content_score_normalized + (0.6 : ℚ) * collab_score
  let hybrid_score := if isInWatchlist e user_id m.id then base + (0.2 : ℚ) else base
  { movie_id := m.id
    content_score := content_score_normalized
    collab_score := collab_score
    hybrid_score := hybrid_score
    in_watchlist := isInWatchlist e user_id m.id }

/-- The full `recommendations` list of `get_recommendations` before sorting, in
candidate iteration order (the order of the movie frame). -/
def candidateRecords (e : Engine) (user_id : Nat) : List RecRecord :=
  (unratedMovies e user_id).map fun p =>
    mkRecord e user_id (ratedMovieIds e user_id) p.1 p.2

/-- The stable descending comparison used to model
`recommendations.sort(key=lambda x: x['hybrid_score'], reverse=True)`. -/
def recGE (a b : RecRecord) : Prop := b.hybrid_score ≤ a.hybrid_score

instance : DecidableRel recGE := fun a b =>
  inferInstanceAs (Decidable (b.hybrid_score ≤ a.hybrid_score))

instance : IsTotal RecRecord recGE :=
  ⟨fun a b => le_total b.hybrid_score a.hybrid_score⟩

instance : IsTrans RecRecord recGE :=
  ⟨fun _ _ _ hab hbc => le_trans hbc hab⟩

/-- `get_recommendations(user_id, n)`: cold-start path when the user has no
ratings in the snapshot, otherwise score every unrated movie, sort descending by
hybrid score (stably) and return the first `n` movie ids. -/
def getRecommendations (e : Engine) (user_id n : Nat) (draw : List Nat) :
    Option (List Nat) :=
  if (userRatings e user_id).isEmpty then
    getPopularMovies e n draw
  else
    let recommendations := candidateRecords e user_id
    let sorted := recommendations.insertionSort recGE
    some ((sorted.take n).map RecRecord.movie_id)

/-- State of one pickle cache artifact on disk. -/
inductive CacheState (α : Type) where
  | absent
  | present (a : α)
  | corrupt
  deriving DecidableEq

/-- The error raised by `pickle.load` on a corrupt or unreadable artifact
(`pickle.UnpicklingError` / `OSError`); the build functions have no handler
around the load, so it propagates to the caller of `__init__`. -/
inductive LoadError where
  | unpickling
  deriving DecidableEq

/-- `_build_content_model`: consult the cache first.  On a hit the artifact is
used verbatim (whatever the current movie snapshot is); a corrupt artifact makes
the load raise; on a miss the model is fitted from the movie snapshot and saved.
`computeContent` stands for the TF-IDF fit and cosine-similarity computation
(sklearn, external to this repository); the artifact type is abstract since the
cache logic never inspects it. -/
def buildContentModel {α : Type} (computeContent : List Movie → α)
    (cache : CacheState α) (movies : List Movie) :
    Except LoadError (α × CacheState α) :=
  match cache with
  | .present a => .ok (a, .present a)
  | .corrupt => .error .unpickling
  | .absent =>
    let a := computeContent movies
    .ok (a, .present a)

/-- `_build_collaborative_model`: a cache hit loads the pickled model verbatim; a
corrupt artifact makes the load raise; on a miss, fewer than 100 rating rows
leaves the model absent (`svd_model = None`, and nothing is saved), otherwise the
SVD model is trained and saved.  `trainSVD` stands for the surprise train-test
split and SVD fit. -/
def buildCollaborativeModel (trainSVD : List Rating → SVDModel)
    (cache : CacheState SVDModel) (ratings : List Rating) :
    Except LoadError (Option SVDModel × CacheState SVDModel) :=
  match cache with
  | .present m => .ok (some m, .present m)
  | .corrupt => .error .unpickling
  | .absent =>
    if ratings.length < 100 then .ok (none, .absent)
    else
      let m := trainSVD ratings
      .ok (some m, .present m)

/-- Descending sortedness of a list under a score function. -/
def SortedDescBy {α : Type} (score : α → ℚ) (l : List α) : Prop :=
  l.Pairwise fun a b => score b ≤ score a

/-- The one rating row of the demo engine: user 1 rated movie 1 (movie A)
with 4.5. -/
def demoRating : Rating :=
  { rid := 1, user_id := 1, movie_id := 1, rating := 9/2, timestamp := 0 }

/-- A concrete engine state realizing the worked scenario of the specification:
catalog A, B, C; user 1 has rated A (id 1) with 4.5; similarity(A,B) = 0.8 and
similarity(A,C) = 0.1; movie C (id 3) is on user 1's watchlist; the
collaborative model is absent. -/
def demoEngine : Engine where
  movies :=
    [ { id := 1, title := "A", genre := some "Action", overview := some "aa", tmdb_id := 11 }
    , { id := 2, title := "B", genre := some "Action", overview := some "ab", tmdb_id := 12 }
    , { id := 3, title := "C", genre := some "Drama", overview := none, tmdb_id := 13 } ]
  ratings := [ demoRating ]
  watchlist := [ { wid := 1, user_id := 1, movie_id := 3, added_at := 0 } ]
  contentSimilarity := fun i j =>
    if i = j then 1
    else if (i = 0 ∧ j = 1) ∨ (i = 1 ∧ j = 0) then 4/5
    else if (i = 0 ∧ j = 2) ∨ (i = 2 ∧ j = 0) then 1/10
    else 0
  svdModel := none

/-- An engine whose rating snapshot is empty: any request falls through to the
random-sample branch of `_get_popular_movies`. -/
def emptyRatingsEngine : Engine where
  movies := [ { id := 1, title := "A", genre := some "Action", overview := none, tmdb_id := 11 } ]
  ratings := []
  watchlist := []
  contentSimilarity := fun _ _ => 0
  svdModel := none

/-- The demo engine with an empty watchlist: identical to `demoEngine` in every
input that feeds the content and collaborative scores. -/
def demoEngineNoWatch : Engine :=
  { demoEngine with watchlist := [] }

/-- The catalog row of movie C of the demo engine. -/
def demoMovieC : Movie :=
  { id := 3, title := "C", genre := some "Drama", overview := none, tmdb_id := 13 }

/-- A stand-in training function whose model always fails to predict. -/
def trainStub : List Rating → SVDModel :=
  fun _ => { predict := fun _ _ => none }

/-- A rating snapshot with exactly 100 rows (the training threshold). -/
def manyRatings : List Rating :=
  List.replicate 100 { rid := 1, user_id := 1, movie_id := 1, rating := 3, timestamp := 0 }

/-! Path lemmas: the four observable shapes of `get_recommendations`, one per
branch of the source. -/

/-- Cold-start branch: a user without ratings in the snapshot is routed to
`_get_popular_movies`. -/
theorem getRecommendations_cold (e : Engine) (uid n : Nat) (draw : List Nat)
    (h : (userRatings e uid).isEmpty = true) :
    getRecommendations e uid n draw = getPopularMovies e n draw := by
  simp [getRecommendations, h]

/-- Hybrid branch: a user with at least one rating gets the first `n` ids of the
stably descending-sorted candidate records. -/
theorem getRecommendations_hybrid (e : Engine) (uid n : Nat) (draw : List Nat)
    (h : (userRatings e uid).isEmpty = false) :
    getRecommendations e uid n draw
      = some ((((candidateRecords e uid).insertionSort recGE).take n).map
          RecRecord.movie_id) := by
  simp [getRecommendations, h]

/-- Empty rating snapshot: `_get_popular_movies` falls back to the random
sample. -/
theorem getPopularMovies_empty (e : Engine) (n : Nat) (draw : List Nat)
    (h : e.ratings.isEmpty = true) :
    getPopularMovies e n draw = sampleMovieIds e.movies n draw := by
  simp [getPopularMovies, h]

/-- Non-empty rating snapshot: `_get_popular_movies` returns the first `n` group
keys sorted descending by popularity score. -/
theorem getPopularMovies_nonempty (e : Engine) (n : Nat) (draw : List Nat)
    (h : e.ratings.isEmpty = false) :
    getPopularMovies e n draw
      = some (((popKeys e.ratings).insertionSort (popGE e.ratings)).take n) := by
  simp [getPopularMovies, h]

/-! Helper lemmas about the random-sample path. -/

/-- Every id produced by the sample body is an id of the catalog. -/
theorem sample_ids_subset (movies : List Movie) (draw : List Nat) :
    ∀ x ∈ (draw.filterMap fun i => movies[i]?).map Movie.id, x ∈ movies.map Movie.id := by
  intro x hx
  rw [List.mem_map] at hx ⊢
  obtain ⟨m, hm, rfl⟩ := hx
  rw [List.mem_filterMap] at hm
  obtain ⟨i, _, hmi⟩ := hm
  obtain ⟨hlt, rfl⟩ := List.getElem?_eq_some.mp hmi
  exact ⟨_, List.getElem_mem hlt, rfl⟩

/-- A valid draw hits every position, so the sample body has the draw's length. -/
theorem sample_ids_length (movies : List Movie) :
    ∀ draw : List Nat, (∀ i ∈ draw, i < movies.length) →
      (draw.filterMap fun i => movies[i]?).length = draw.length := by
  intro draw
  induction draw with
  | nil => simp
  | cons i is ih =>
    intro hlt
    have hi : i < movies.length := hlt i (List.mem_cons_self i is)
    rw [List.filterMap_cons, List.getElem?_eq_getElem hi]
    simp only [List.length_cons]
    rw [ih fun j hj => hlt j (List.mem_cons_of_mem i hj)]

/-- A valid draw over a catalog with distinct ids yields distinct sampled ids. -/
theorem sample_ids_nodup (movies : List Movie) (hids : (movies.map Movie.id).Nodup) :
    ∀ draw : List Nat, draw.Nodup → (∀ i ∈ draw, i < movies.length) →
      ((draw.filterMap fun i => movies[i]?).map Movie.id).Nodup := by
  intro draw
  induction draw with
  | nil => simp
  | cons i is ih =>
    intro hnd hlt
    have hi : i < movies.length := hlt i (List.mem_cons_self i is)
    rw [List.filterMap_cons, List.getElem?_eq_getElem hi, List.map_cons, List.nodup_cons]
    refine ⟨?_, ih (List.nodup_cons.mp hnd).2 fun j hj => hlt j (List.mem_cons_of_mem i hj)⟩
    intro hmem
    rw [List.mem_map] at hmem
    obtain ⟨m, hm, hid⟩ := hmem
    rw [List.mem_filterMap] at hm
    obtain ⟨j, hjmem, hmj⟩ := hm
    obtain ⟨hj, rfl⟩ := List.getElem?_eq_some.mp hmj
    have hmaps : movies.length = (movies.map Movie.id).length := (List.length_map _ _).symm
    have hgi : (movies.map Movie.id).get ⟨i, hmaps ▸ hi⟩ = movies[i].id := by
      simp
    have hgj : (movies.map Movie.id).get ⟨j, hmaps ▸ hj⟩ = movies[j].id := by
      simp
    have heq : (movies.map Movie.id).get ⟨i, hmaps ▸ hi⟩
        = (movies.map Movie.id).get ⟨j, hmaps ▸ hj⟩ := by
      rw [hgi, hgj, hid]
    have := (List.Nodup.get_inj_iff hids).mp heq
    have hij : i = j := congrArg Fin.val this
    exact (List.nodup_cons.mp hnd).1 (hij ▸ hjmem)

/-! Helper lemmas about the hybrid path. -/

/-- The record list carries exactly the unrated movie ids, in candidate order. -/
theorem candidateRecords_map_id (e : Engine) (uid : Nat) :
    (candidateRecords e uid).map RecRecord.movie_id
      = (unratedMovies e uid).map fun p => p.2.id := by
  simp [candidateRecords, mkRecord, List.map_map, Function.comp]

/-- The candidate ids form a sublist of the catalog ids. -/
theorem candidateRecords_ids_sublist (e : Engine) (uid : Nat) :
    (candidateRecords e uid).map RecRecord.movie_id <+ e.movies.map Movie.id := by
  rw [candidateRecords_map_id]
  have h₁ : (unratedMovies e uid).map (fun p => p.2.id)
      <+ e.movies.enum.map fun p => p.2.id :=
    List.Sublist.map _ (List.filter_sublist _)
  have h₂ : (e.movies.enum.map fun p => p.2.id) = e.movies.map Movie.id := by
    have : (e.movies.enum.map fun p => p.2.id)
        = (e.movies.enum.map Prod.snd).map Movie.id := by
      rw [List.map_map]; rfl
    rw [this, List.enum_map_snd]
  exact h₂ ▸ h₁

/-- Membership in the candidate ids means the user has not rated that id. -/
theorem candidateRecords_not_rated (e : Engine) (uid : Nat) (x : Nat)
    (hx : x ∈ (candidateRecords e uid).map RecRecord.movie_id) :
    x ∉ ratedMovieIds e uid := by
  rw [candidateRecords_map_id, List.mem_map] at hx
  obtain ⟨p, hp, rfl⟩ := hx
  rw [unratedMovies, List.mem_filter] at hp
  intro hmem
  have := hp.2
  rw [Bool.not_eq_true', ← Bool.not_eq_true] at this
  exact this (List.elem_iff.mpr hmem)

/-! Helper lemmas about the popularity ranking. -/

/-- The group keys are distinct. -/
theorem popKeys_nodup (ratings : List Rating) : (popKeys ratings).Nodup :=
  (List.perm_insertionSort _ _).symm.nodup (List.nodup_dedup _)

/-- The group keys are exactly the movie ids occurring in the rating snapshot. -/
theorem mem_popKeys (ratings : List Rating) (x : Nat) :
    x ∈ popKeys ratings ↔ x ∈ ratings.map Rating.movie_id := by
  unfold popKeys
  rw [List.mem_insertionSort, List.mem_dedup]

/-- An empty rating snapshot has no rows for any user. -/
theorem userRatings_isEmpty_of_ratings_isEmpty (e : Engine) (uid : Nat)
    (h : e.ratings.isEmpty = true) : (userRatings e uid).isEmpty = true := by
  rw [List.isEmpty_iff] at h ⊢
  simp [userRatings, h]

/-- Sanity check mirroring the specification's worked scenario: user 1 rated A;
movie B scores 0.4 * 4.0 + 0.6 * 3.0 = 3.4 and movie C scores
0.4 * 0.5 + 0.6 * 3.0 + 0.2 = 2.2 with its watchlist boost, so the result is
[B, C]: the boost does not override the larger base-score gap. -/
theorem demoEngine_scenario :
    getRecommendations demoEngine 1 2 [] = some [2, 3] := by
  norm_num [getRecommendations, userRatings, getPopularMovies, candidateRecords,
    unratedMovies, ratedMovieIds, mkRecord, getContentScores, similarityLookups,
    getCollaborativeScore, isInWatchlist, recGE, List.insertionSort,
    List.orderedInsert, demoEngine, demoRating, List.enum, List.enumFrom,
    List.findIdx?_cons, List.findIdx?_nil, List.filter, List.filterMap]

/-- Sanity check: user 2, absent from the rating snapshot, gets the popularity
ranking (movie 1 is the only rated movie). -/
theorem demoEngine_cold_start :
    getRecommendations demoEngine 2 2 [] = some [1] := by decide

/-- Sanity check: with an empty rating snapshot and a feasible request, the
sampled catalog ids are returned. -/
theorem emptyRatingsEngine_sample :
    getRecommendations emptyRatingsEngine 1 1 [0] = some [1] := by decide

/-- C1, counterexample to the claim as stated: with an empty rating snapshot and
a one-movie catalog, requesting `n = 2` recommendations makes
`movies_df.sample(n=2)` raise `ValueError` (modelled by `none`), so on the
empty-rating-snapshot fallback an error IS raised when `n` exceeds the number of
eligible candidates, instead of all candidates being returned. -/
theorem filmC1_counterexample :
    getRecommendations emptyRatingsEngine 1 2 [0] = none := by decide

/-- C1 (amended): with distinct catalog ids and referentially intact ratings,
every successful result has at most `n` entries, all distinct and in the
catalog; on the popularity path and on the hybrid path, a request for more than
the number of eligible candidates returns exactly all candidates (no padding, no
error); on the empty-rating-snapshot sample fallback the call fails exactly when
`n` exceeds the catalog size, and otherwise returns exactly `n` sampled ids.
The draw-validity hypothesis is scoped to the one case in which pandas actually
draws a sample — empty rating snapshot and `n` at most the catalog size — so the
theorem applies to every call, including every `n` larger than the catalog. -/
theorem filmC1 (e : Engine) (uid n : Nat) (draw : List Nat)
    (hids : (e.movies.map Movie.id).Nodup)
    (href : ∀ r ∈ e.ratings, r.movie_id ∈ e.movies.map Movie.id)
    (hdraw : e.ratings.isEmpty = true → n ≤ e.movies.length →
      ValidDraw draw n e.movies.length) :
    (∀ res, getRecommendations e uid n draw = some res →
        res.length ≤ n ∧ res.Nodup ∧ ∀ x ∈ res, x ∈ e.movies.map Movie.id)
    ∧ ((userRatings e uid).isEmpty = true → e.ratings.isEmpty = false →
        (popKeys e.ratings).length ≤ n →
        ∃ res, getRecommendations e uid n draw = some res ∧ res ~ popKeys e.ratings)
    ∧ ((userRatings e uid).isEmpty = false → (candidateRecords e uid).length ≤ n →
        ∃ res, getRecommendations e uid n draw = some res
          ∧ res ~ (candidateRecords e uid).map RecRecord.movie_id)
    ∧ (e.ratings.isEmpty = true →
        ((getRecommendations e uid n draw = none ↔ e.movies.length < n)
          ∧ (n ≤ e.movies.length →
              ∃ res, getRecommendations e uid n draw = some res ∧ res.length = n))) := by
  refine ⟨?_, ?_, ?_, ?_⟩
  · intro res hres
    by_cases hu : (userRatings e uid).isEmpty = true
    · rw [getRecommendations_cold e uid n draw hu] at hres
      by_cases hr : e.ratings.isEmpty = true
      · rw [getPopularMovies_empty e n draw hr, sampleMovieIds] at hres
        by_cases hn : n ≤ e.movies.length
        · rw [if_pos hn] at hres
          obtain rfl := Option.some.inj hres
          have hd := hdraw hr hn
          refine ⟨?_, ?_, ?_⟩
          · rw [List.length_map]
            exact hd.2.1 ▸ List.length_filterMap_le _ _
          · exact sample_ids_nodup e.movies hids draw hd.1 hd.2.2
          · exact sample_ids_subset e.movies draw
        · rw [if_neg hn] at hres
          exact absurd hres (by simp)
      · rw [Bool.not_eq_true] at hr
        rw [getPopularMovies_nonempty e n draw hr] at hres
        obtain rfl := Option.some.inj hres
        have hnd : (((popKeys e.ratings).insertionSort (popGE e.ratings)).take n).Nodup :=
          ((List.perm_insertionSort _ _).symm.nodup (popKeys_nodup _)).sublist
            (List.take_sublist _ _)
        refine ⟨List.length_take_le _ _, hnd, ?_⟩
        intro x hx
        have hx' : x ∈ (popKeys e.ratings).insertionSort (popGE e.ratings) :=
          (List.take_sublist _ _).subset hx
        rw [List.mem_insertionSort, mem_popKeys, List.mem_map] at hx'
        obtain ⟨r, hrmem, rfl⟩ := hx'
        exact href r hrmem
    · rw [Bool.not_eq_true] at hu
      rw [getRecommendations_hybrid e uid n draw hu] at hres
      obtain rfl := Option.some.inj hres
      have hperm : ((candidateRecords e uid).insertionSort recGE).map RecRecord.movie_id
          ~ (candidateRecords e uid).map RecRecord.movie_id :=
        (List.perm_insertionSort recGE (candidateRecords e uid)).map RecRecord.movie_id
      have hsubl : ((((candidateRecords e uid).insertionSort recGE).take n).map
          RecRecord.movie_id)
          <+ ((candidateRecords e uid).insertionSort recGE).map RecRecord.movie_id :=
        List.Sublist.map _ (List.take_sublist _ _)
      refine ⟨?_, ?_, ?_⟩
      · rw [List.length_map]
        exact List.length_take_le _ _
      · exact ((hperm.symm.nodup (hids.sublist
          (candidateRecords_ids_sublist e uid))).sublist hsubl)
      · intro x hx
        exact (candidateRecords_ids_sublist e uid).subset (hperm.subset (hsubl.subset hx))
  · intro hu hr hk
    rw [getRecommendations_cold e uid n draw hu, getPopularMovies_nonempty e n draw hr]
    refine ⟨_, rfl, ?_⟩
    rw [List.take_of_length_le (by rw [List.length_insertionSort]; exact hk)]
    exact List.perm_insertionSort _ _
  · intro hu hk
    rw [getRecommendations_hybrid e uid n draw hu]
    refine ⟨_, rfl, ?_⟩
    rw [List.take_of_length_le (by rw [List.length_insertionSort]; exact hk)]
    exact (List.perm_insertionSort _ _).map _
  · intro hr
    have hu := userRatings_isEmpty_of_ratings_isEmpty e uid hr
    rw [getRecommendations_cold e uid n draw hu, getPopularMovies_empty e n draw hr,
      sampleMovieIds]
    constructor
    · by_cases hn : n ≤ e.movies.length
      · rw [if_pos hn]
        simp only [reduceCtorEq, false_iff, not_lt]
        omega
      · rw [if_neg hn]
        simp only [true_iff]
        omega
    · intro hn
      have hd := hdraw hr hn
      rw [if_pos hn]
      refine ⟨_, rfl, ?_⟩
      rw [List.length_map, sample_ids_length e.movies draw hd.2.2, hd.2.1]

/-- C2: on the hybrid path (the requesting user has at least one rating in the
snapshot), the returned list never contains an id the user has rated: every
rated id is excluded from candidacy before scoring. -/
theorem filmC2 (e : Engine) (uid n : Nat) (draw : List Nat)
    (h : (userRatings e uid).isEmpty = false) :
    ∀ res, getRecommendations e uid n draw = some res →
      ∀ r ∈ e.ratings, r.user_id = uid → r.movie_id ∉ res := by
  intro res hres r hr hruid hmem
  rw [getRecommendations_hybrid e uid n draw h] at hres
  obtain rfl := Option.some.inj hres
  have h₁ : r.movie_id
      ∈ ((candidateRecords e uid).insertionSort recGE).map RecRecord.movie_id :=
    (List.Sublist.map _ (List.take_sublist _ _)).subset hmem
  have h₂ : r.movie_id ∈ (candidateRecords e uid).map RecRecord.movie_id :=
    ((List.perm_insertionSort recGE (candidateRecords e uid)).map
      RecRecord.movie_id).subset h₁
  refine candidateRecords_not_rated e uid r.movie_id h₂ ?_
  rw [ratedMovieIds, List.mem_map]
  refine ⟨r, ?_, rfl⟩
  rw [userRatings, List.mem_filter]
  exact ⟨hr, by simp [hruid]⟩

/-- C3: for every candidate, the hybrid score is the fixed combination
0.4 * content_scaled + 0.6 * collaborative, plus exactly 0.2 added iff the
candidate is in the user's watchlist, with no clamping; two otherwise-identical
scoring contexts differing only in watchlist membership differ by exactly 0.2. -/
theorem filmC3 (e e₂ : Engine) (uid idx : Nat) (rated : List Nat) (m : Movie)
    (hm : e.movies = e₂.movies) (hs : e.contentSimilarity = e₂.contentSimilarity)
    (hv : e.svdModel = e₂.svdModel)
    (hw : isInWatchlist e uid m.id = true) (hw₂ : isInWatchlist e₂ uid m.id = false) :
    (∀ (f : Engine) (uid₂ idx₂ : Nat) (rated₂ : List Nat) (m₂ : Movie),
        (mkRecord f uid₂ rated₂ idx₂ m₂).hybrid_score
          = 0.4 * (mkRecord f uid₂ rated₂ idx₂ m₂).content_score
            + 0.6 * (mkRecord f uid₂ rated₂ idx₂ m₂).collab_score
            + (if isInWatchlist f uid₂ m₂.id then (0.2 : ℚ) else 0))
    ∧ (mkRecord e uid rated idx m).hybrid_score
        = (mkRecord e₂ uid rated idx m).hybrid_score + 0.2 := by
  constructor
  · intro f uid₂ idx₂ rated₂ m₂
    by_cases hwf : isInWatchlist f uid₂ m₂.id
    · simp [mkRecord, hwf]
    · simp [mkRecord, hwf]
  · have hc : getContentScores e idx rated = getContentScores e₂ idx rated := by
      simp [getContentScores, similarityLookups, hm, hs]
    have hcol : getCollaborativeScore e uid m.id = getCollaborativeScore e₂ uid m.id := by
      simp [getCollaborativeScore, hv]
    simp [mkRecord, hw, hw₂, hc, hcol]

/-- C4: the scaled content score of a candidate is the mean of the similarity
values to the user's rated movies (restricted to rated ids present in the
snapshot) multiplied by 5, and it is exactly 0 — not an error — when no rated id
is found in the snapshot. -/
theorem filmC4 (e : Engine) (uid idx : Nat) (rated : List Nat) (m : Movie)
    (h : rated ≠ []) :
    (similarityLookups e idx rated ≠ [] →
      (mkRecord e uid rated idx m).content_score
        = (similarityLookups e idx rated).sum
            / ((similarityLookups e idx rated).length : ℚ) * 5)
    ∧ ((∀ rid ∈ rated, rid ∉ e.movies.map Movie.id) →
      (mkRecord e uid rated idx m).content_score = 0) := by
  have hne : rated.isEmpty = false := by
    simpa [List.isEmpty_iff] using h
  constructor
  · intro hsims
    have hse : (similarityLookups e idx rated).isEmpty = false := by
      simpa [List.isEmpty_iff] using hsims
    simp [mkRecord, getContentScores, hne, hse]
  · intro habs
    have hnone : similarityLookups e idx rated = [] := by
      rw [similarityLookups, List.filterMap_eq_nil_iff]
      intro rid hrid
      have hfind : e.movies.findIdx? (fun m' => m'.id == rid) = none := by
        rw [List.findIdx?_eq_none_iff]
        intro m' hm'
        have hneq : m'.id ≠ rid := fun hEq =>
          habs rid hrid (List.mem_map.mpr ⟨m', hm', hEq⟩)
        simp [hneq]
      simp [hfind]
    simp [mkRecord, getContentScores, hne, hnone]

/-- C5: the collaborative score is exactly 3.0 when the model is absent (the
state a cache-miss build produces from a sub-100-row rating snapshot) or when
prediction fails, and a prediction failure never aborts the ranking pass: the
hybrid path always returns a result. -/
theorem filmC5 (e : Engine) (uid mid n : Nat) (draw : List Nat)
    (trainSVD : List Rating → SVDModel) (ratings : List Rating)
    (hsmall : ratings.length < 100)
    (hu : (userRatings e uid).isEmpty = false) :
    (e.svdModel = none → getCollaborativeScore e uid mid = 3)
    ∧ (∀ model, e.svdModel = some model → model.predict uid mid = none →
        getCollaborativeScore e uid mid = 3)
    ∧ buildCollaborativeModel trainSVD CacheState.absent ratings
        = Except.ok (none, CacheState.absent)
    ∧ ∃ res, getRecommendations e uid n draw = some res := by
  refine ⟨?_, ?_, ?_, ?_⟩
  · intro hm
    simp [getCollaborativeScore, hm]
  · intro model hm hp
    simp [getCollaborativeScore, hm, hp]
  · simp only [buildCollaborativeModel]
    rw [if_pos hsmall]
  · exact ⟨_, getRecommendations_hybrid e uid n draw hu⟩

/-- C6: every user with zero ratings in the snapshot — including one absent from
it entirely, which is not an error — takes the cold-start path: with a non-empty
snapshot, the rated movie ids are ranked descending by
rating_count * mean_rating and the first `n` returned; with an empty snapshot
the random-sample fallback is taken instead. -/
theorem filmC6 (e : Engine) (uid n : Nat) (draw : List Nat)
    (h : (userRatings e uid).isEmpty = true) :
    getRecommendations e uid n draw = getPopularMovies e n draw
    ∧ (e.ratings.isEmpty = false →
        ∃ sortedKeys : List Nat, popKeys e.ratings ~ sortedKeys
          ∧ SortedDescBy (popScore e.ratings) sortedKeys
          ∧ getPopularMovies e n draw = some (sortedKeys.take n))
    ∧ (e.ratings.isEmpty = true →
        getPopularMovies e n draw = sampleMovieIds e.movies n draw) := by
  refine ⟨getRecommendations_cold e uid n draw h, ?_, getPopularMovies_empty e n draw⟩
  intro hr
  exact ⟨(popKeys e.ratings).insertionSort (popGE e.ratings),
    (List.perm_insertionSort _ _).symm,
    List.sorted_insertionSort (popGE e.ratings) (popKeys e.ratings),
    getPopularMovies_nonempty e n draw hr⟩

/-- C7: on the hybrid path the result is the first `n` ids (ids only, no scores
or flags) of a permutation of the candidate records that is sorted descending by
hybrid score, with ties kept in the original candidate iteration order
(item-snapshot order). -/
theorem filmC7 (e : Engine) (uid n : Nat) (draw : List Nat)
    (h : (userRatings e uid).isEmpty = false) :
    ∃ sorted : List RecRecord,
      candidateRecords e uid ~ sorted
      ∧ SortedDescBy RecRecord.hybrid_score sorted
      ∧ (∀ a b : RecRecord, a.hybrid_score = b.hybrid_score →
          [a, b] <+ candidateRecords e uid → [a, b] <+ sorted)
      ∧ getRecommendations e uid n draw
          = some ((sorted.take n).map RecRecord.movie_id) := by
  refine ⟨(candidateRecords e uid).insertionSort recGE,
    (List.perm_insertionSort _ _).symm,
    List.sorted_insertionSort recGE (candidateRecords e uid), ?_,
    getRecommendations_hybrid e uid n draw h⟩
  intro a b hab hsub
  exact List.pair_sublist_insertionSort (le_of_eq hab.symm) hsub

/-- C8: a present cache artifact is loaded and used verbatim with no
recomputation (for any snapshot, changed or not); a missing artifact makes the
model be computed and then saved. -/
theorem filmC8 {α : Type} (computeContent : List Movie → α)
    (trainSVD : List Rating → SVDModel) (a : α) (model : SVDModel)
    (movies movies₂ : List Movie) (ratings : List Rating)
    (h100 : 100 ≤ ratings.length) :
    buildContentModel computeContent (CacheState.present a) movies
        = Except.ok (a, CacheState.present a)
    ∧ buildContentModel computeContent (CacheState.present a) movies
        = buildContentModel computeContent (CacheState.present a) movies₂
    ∧ buildContentModel computeContent CacheState.absent movies
        = Except.ok (computeContent movies, CacheState.present (computeContent movies))
    ∧ buildCollaborativeModel trainSVD (CacheState.present model) ratings
        = Except.ok (some model, CacheState.present model)
    ∧ buildCollaborativeModel trainSVD CacheState.absent ratings
        = Except.ok (some (trainSVD ratings), CacheState.present (trainSVD ratings)) := by
  refine ⟨rfl, rfl, rfl, rfl, ?_⟩
  simp only [buildCollaborativeModel]
  rw [if_neg (by omega)]

/-- C9: a present-but-corrupt cache artifact makes construction fail with the
typed load error: the load raises to the caller and the engine never silently
rebuilds the model instead. -/
theorem filmC9 {α : Type} (computeContent : List Movie → α)
    (trainSVD : List Rating → SVDModel) (movies : List Movie) (ratings : List Rating) :
    buildContentModel computeContent CacheState.corrupt movies
        = Except.error LoadError.unpickling
    ∧ buildCollaborativeModel trainSVD CacheState.corrupt ratings
        = Except.error LoadError.unpickling :=
  ⟨rfl, rfl⟩

/-- C10: with a non-empty rating snapshot, `get_recommendations` is
deterministic: the random draw (the only nondeterministic input) is never
consulted, so two calls with the same user and `n` agree. -/
theorem filmC10 (e : Engine) (uid n : Nat) (draw draw₂ : List Nat)
    (h : e.ratings.isEmpty = false) :
    getRecommendations e uid n draw = getRecommendations e uid n draw₂ := by
  by_cases hu : (userRatings e uid).isEmpty = true
  · rw [getRecommendations_cold e uid n draw hu, getRecommendations_cold e uid n draw₂ hu,
      getPopularMovies_nonempty e n draw h, getPopularMovies_nonempty e n draw₂ h]
  · rw [Bool.not_eq_true] at hu
    rw [getRecommendations_hybrid e uid n draw hu,
      getRecommendations_hybrid e uid n draw₂ hu]

/-- Witness instantiating the amended C1 at the demo engine with a request for
`n = 5` recommendations, larger than the 3-movie catalog: the theorem applies
there, and its hybrid conjunct yields all eligible candidates with no error. -/
theorem filmC1_witness :
    (∀ res, getRecommendations demoEngine 1 5 [] = some res →
        res.length ≤ 5 ∧ res.Nodup ∧ ∀ x ∈ res, x ∈ demoEngine.movies.map Movie.id)
    ∧ ((userRatings demoEngine 1).isEmpty = true → demoEngine.ratings.isEmpty = false →
        (popKeys demoEngine.ratings).length ≤ 5 →
        ∃ res, getRecommendations demoEngine 1 5 [] = some res
          ∧ res ~ popKeys demoEngine.ratings)
    ∧ ((userRatings demoEngine 1).isEmpty = false →
        (candidateRecords demoEngine 1).length ≤ 5 →
        ∃ res, getRecommendations demoEngine 1 5 [] = some res
          ∧ res ~ (candidateRecords demoEngine 1).map RecRecord.movie_id)
    ∧ (demoEngine.ratings.isEmpty = true →
        ((getRecommendations demoEngine 1 5 [] = none
            ↔ demoEngine.movies.length < 5)
          ∧ (5 ≤ demoEngine.movies.length →
              ∃ res, getRecommendations demoEngine 1 5 [] = some res
                ∧ res.length = 5))) :=
  filmC1 demoEngine 1 5 [] (by decide) (by decide) (by decide)

/-- Witness instantiating C2 fully at the demo engine: user 1 has rated movie 1,
the hybrid result is [2, 3], and the rated id 1 is indeed not in it. -/
theorem filmC2_witness : demoRating.movie_id ∉ [2, 3] :=
  filmC2 demoEngine 1 2 [] (by decide) [2, 3] demoEngine_scenario
    demoRating (List.mem_cons_self _ _) rfl

/-- Witness instantiating C3 at the demo engine and its watchlist-free twin, at
candidate movie C. -/
theorem filmC3_witness :
    (∀ (f : Engine) (uid₂ idx₂ : Nat) (rated₂ : List Nat) (m₂ : Movie),
        (mkRecord f uid₂ rated₂ idx₂ m₂).hybrid_score
          = 0.4 * (mkRecord f uid₂ rated₂ idx₂ m₂).content_score
            + 0.6 * (mkRecord f uid₂ rated₂ idx₂ m₂).collab_score
            + (if isInWatchlist f uid₂ m₂.id then (0.2 : ℚ) else 0))
    ∧ (mkRecord demoEngine 1 [1] 2 demoMovieC).hybrid_score
        = (mkRecord demoEngineNoWatch 1 [1] 2 demoMovieC).hybrid_score + 0.2 :=
  filmC3 demoEngine demoEngineNoWatch 1 2 [1] demoMovieC
    rfl rfl rfl (by decide) (by decide)

/-- Witness instantiating C4 at the demo engine, candidate movie C, rated list
containing movie 1. -/
theorem filmC4_witness :
    (similarityLookups demoEngine 2 [1] ≠ [] →
      (mkRecord demoEngine 1 [1] 2 demoMovieC).content_score
        = (similarityLookups demoEngine 2 [1]).sum
            / ((similarityLookups demoEngine 2 [1]).length : ℚ) * 5)
    ∧ ((∀ rid ∈ [1], rid ∉ demoEngine.movies.map Movie.id) →
      (mkRecord demoEngine 1 [1] 2 demoMovieC).content_score = 0) :=
  filmC4 demoEngine 1 2 [1] demoMovieC (by decide)

/-- Witness instantiating C5 at the demo engine, whose one-row snapshot is below
the training threshold and whose requesting user 1 has a rating. -/
theorem filmC5_witness :
    (demoEngine.svdModel = none → getCollaborativeScore demoEngine 1 2 = 3)
    ∧ (∀ model, demoEngine.svdModel = some model → model.predict 1 2 = none →
        getCollaborativeScore demoEngine 1 2 = 3)
    ∧ buildCollaborativeModel trainStub CacheState.absent demoEngine.ratings
        = Except.ok (none, CacheState.absent)
    ∧ ∃ res, getRecommendations demoEngine 1 2 [] = some res :=
  filmC5 demoEngine 1 2 2 [] trainStub demoEngine.ratings (by decide) (by decide)

/-- Witness instantiating C6 at the demo engine for user 2, who is entirely
absent from the rating snapshot. -/
theorem filmC6_witness :
    getRecommendations demoEngine 2 2 [] = getPopularMovies demoEngine 2 []
    ∧ (demoEngine.ratings.isEmpty = false →
        ∃ sortedKeys : List Nat, popKeys demoEngine.ratings ~ sortedKeys
          ∧ SortedDescBy (popScore demoEngine.ratings) sortedKeys
          ∧ getPopularMovies demoEngine 2 [] = some (sortedKeys.take 2))
    ∧ (demoEngine.ratings.isEmpty = true →
        getPopularMovies demoEngine 2 [] = sampleMovieIds demoEngine.movies 2 []) :=
  filmC6 demoEngine 2 2 [] (by decide)

/-- Witness instantiating C7 at the demo engine for user 1. -/
theorem filmC7_witness :
    ∃ sorted : List RecRecord,
      candidateRecords demoEngine 1 ~ sorted
      ∧ SortedDescBy RecRecord.hybrid_score sorted
      ∧ (∀ a b : RecRecord, a.hybrid_score = b.hybrid_score →
          [a, b] <+ candidateRecords demoEngine 1 → [a, b] <+ sorted)
      ∧ getRecommendations demoEngine 1 2 []
          = some ((sorted.take 2).map RecRecord.movie_id) :=
  filmC7 demoEngine 1 2 [] (by decide)

/-- Witness instantiating C8 with a 100-row rating snapshot and concrete cache
artifacts. -/
theorem filmC8_witness :
    buildContentModel List.length (CacheState.present 7) demoEngine.movies
        = Except.ok (7, CacheState.present 7)
    ∧ buildContentModel List.length (CacheState.present 7) demoEngine.movies
        = buildContentModel List.length (CacheState.present 7) []
    ∧ buildContentModel List.length CacheState.absent demoEngine.movies
        = Except.ok (demoEngine.movies.length,
            CacheState.present demoEngine.movies.length)
    ∧ buildCollaborativeModel trainStub (CacheState.present (trainStub [])) manyRatings
        = Except.ok (some (trainStub []), CacheState.present (trainStub []))
    ∧ buildCollaborativeModel trainStub CacheState.absent manyRatings
        = Except.ok (some (trainStub manyRatings),
            CacheState.present (trainStub manyRatings)) :=
  filmC8 List.length trainStub 7 (trainStub []) demoEngine.movies [] manyRatings
    (by decide)

/-- Witness instantiating C10 at the demo engine with two different draws. -/
theorem filmC10_witness :
    getRecommendations demoEngine 1 2 [] = getRecommendations demoEngine 1 2 [0, 1, 2] :=
  filmC10 demoEngine 1 2 [] [0, 1, 2] (by decide)

end Film
